import Mathlib

/-!
Shallow embedding of the authenticated API client of the d2-portainer
repository (source file src/data/PortainerApi.ts) together with proofs of
its specified properties.  The network is modelled as an oracle mapping an
outgoing HTTP request to its outcome; every operation additionally returns
the list of requests it actually issued, so that ordering and
short-circuit properties can be stated.
-/

namespace D2Portainer

/-- Modelled from the spec: the Result type (src/utils/Either.ts is not
among the sources).  Exactly one of Success or Error, with map, flatMap
and an isError test, used as the return shape of every network
operation. -/
inductive Either (E T : Type) where
  | error (e : E)
  | success (s : T)
deriving Repr, DecidableEq

/-- Transform the success value, keep errors. -/
def Either.map {E T U : Type} : Either E T → (T → U) → Either E U
  | .error e, _ => .error e
  | .success s, f => .success (f s)

/-- Chain a dependent fallible operation. -/
def Either.flatMap {E T U : Type} : Either E T → (T → Either E U) → Either E U
  | .error e, _ => .error e
  | .success s, f => f s

/-- True exactly on the error variant. -/
def Either.isError {E T : Type} : Either E T → Bool
  | .error _ => true
  | .success _ => false

/-- Modelled from the spec: the Stack remote entity (PortainerApiTypes.ts
is not among the sources); keyed by Id and owned by an EndpointId, the
only fields the client logic reads. -/
structure Stack where
  Id : Int
  EndpointId : Int
deriving Repr, DecidableEq

/-- Modelled from the spec: the Endpoint remote entity (PortainerApiTypes.ts
is not among the sources); a numeric Id resolved from a human-readable
Name during login. -/
structure Endpoint where
  Id : Int
  Name : String
deriving Repr, DecidableEq

/-- A JavaScript object response body.  Absent string fields are the empty
string (both are falsy under lodash compact and the || operator, which is
the only way the code inspects them).  The json field carries the
JSON.stringify serialization of the body, which the embedding treats as
data.  The jwt, endpoints and stacks fields model the unchecked
`data as T` casts performed by the typed request calls. -/
structure ObjData where
  message : String
  details : String
  json : String
  jwt : String
  endpoints : List Endpoint
  stackList : List Stack
deriving Repr, DecidableEq

/-- A response body: a string, an object (arrays included), or anything
else (number, boolean, null, undefined). -/
inductive RespData where
  | str (s : String)
  | obj (o : ObjData)
  | other
deriving Repr, DecidableEq

/-- The thrown value of a failed transport call: either a falsy value, or
an error object with a possibly-falsy message and a toString fallback. -/
inductive TransportError where
  | nullish
  | err (message : String) (toStr : String)
deriving Repr, DecidableEq

/-- An HTTP response as seen by the wrapper: numeric status and body. -/
structure HttpResponse where
  status : Nat
  data : RespData
deriving Repr, DecidableEq

/-- Outcome of one axios call: it either threw or produced a response
(validateStatus always true, so every status produces a response). -/
inductive HttpOutcome where
  | threw (e : TransportError)
  | responded (r : HttpResponse)
deriving Repr, DecidableEq

/-- Request payload relevant to the claims: the /auth credentials body or
no body. -/
inductive ReqBody where
  | empty
  | auth (username password : String)
deriving Repr, DecidableEq

/-- An outgoing HTTP request: method, full URL, the value of the
Authorization header when one is sent, and the payload. -/
structure HttpRequest where
  method : String
  url : String
  authHeader : Option String
  body : ReqBody
deriving Repr, DecidableEq

/-- The network oracle: what the remote side does with each request. -/
def Net : Type := HttpRequest → HttpOutcome

/-- JavaScript || on strings, where the empty string is the only falsy
string (undefined and null are also modelled as the empty string). -/
def jsOr (a b : String) : String :=
  if a = "" then b else a

/-- lodash _.compact on a list of strings: drop the falsy (empty) ones. -/
def compactStrs (xs : List String) : List String :=
  xs.filter (fun s => s != "")

/-- JavaScript String.prototype.trim: drop whitespace from both ends. -/
def jsTrim (s : String) : String :=
  ⟨((s.data.dropWhile Char.isWhitespace).reverse.dropWhile Char.isWhitespace).reverse⟩

/-- The test path.startsWith("/") of the source. -/
def startsWithSlash (s : String) : Bool :=
  match s.data with
  | [] => false
  | c :: _ => c == '/'

/-- ConstructorOptions from the source: the configurable base URL. -/
structure ConstructorOptions where
  baseUrl : String
deriving Repr, DecidableEq

/-- The session state tagged union from the source. -/
inductive State where
  | notLogged
  | logged (endpointId : Int) (token : String)
deriving Repr, DecidableEq

/-- The client instance: constructor options, the derived apiUrl field and
the session state. -/
structure PortainerApi where
  options : ConstructorOptions
  apiUrl : String
  state : State
deriving Repr, DecidableEq

/-- The regex replace of /\/*$/ by the empty string: remove every
trailing slash character. -/
def stripTrailingSlashes (s : String) : String :=
  ⟨(s.data.reverse.dropWhile (fun c => c = '/')).reverse⟩

/-- The constructor: apiUrl is the trailing-slash-stripped base URL plus
"/api"; the state defaults to not-logged. -/
def PortainerApi.make (options : ConstructorOptions) (state : Option State) : PortainerApi :=
  { options := options
    apiUrl := stripTrailingSlashes options.baseUrl ++ "/api"
    state := state.getD .notLogged }

/-- getLoggedInData: throws "Not logged in" unless the state is logged;
the thrown fault is modelled as the Except error channel. -/
def PortainerApi.getLoggedInData (api : PortainerApi) : Except String (Int × String) :=
  match api.state with
  | .notLogged => .error "Not logged in"
  | .logged endpointId token => .ok (endpointId, token)

/-- The baseUrl getter: returns options.baseUrl as stored. -/
def PortainerApi.baseUrl (api : PortainerApi) : String :=
  api.options.baseUrl

/-- The token getter (throws when not logged). -/
def PortainerApi.token (api : PortainerApi) : Except String String :=
  (api.getLoggedInData).map (fun d => d.2)

/-- The endpointId getter (throws when not logged). -/
def PortainerApi.endpointId (api : PortainerApi) : Except String Int :=
  (api.getLoggedInData).map (fun d => d.1)

/-- clearSession: force-set the state to not-logged. -/
def PortainerApi.clearSession (api : PortainerApi) : PortainerApi :=
  { api with state := .notLogged }

/-- setSession: force-set the state to logged with the given token and
endpoint id. -/
def PortainerApi.setSession (api : PortainerApi) (token : String) (endpointId : Int) : PortainerApi :=
  { api with state := .logged endpointId token }

/-- getUrl: prepend a slash to the path when missing, then append to
apiUrl. -/
def PortainerApi.getUrl (api : PortainerApi) (path : String) : String :=
  let path2 := if startsWithSlash path then path else "/" ++ path
  api.apiUrl ++ path2

/-- The request record built by the wrapper: token2 is the explicit token
argument when truthy, else the session token when logged, else nothing;
the Authorization header is sent only when token2 is truthy. -/
def PortainerApi.mkReq (api : PortainerApi) (method path : String)
    (tokenArg : Option String) (body : ReqBody) : HttpRequest :=
  let sessionToken := match api.state with
    | .logged _ tok => tok
    | .notLogged => ""
  let token2 := jsOr (tokenArg.getD "") sessionToken
  { method := method
    url := api.getUrl path
    authHeader := if token2 = "" then none else some ("Bearer " ++ token2)
    body := body }

/-- Status predicate of the wrapper: 2xx or 304 is success. -/
def isSuccessStatus (status : Nat) : Bool :=
  (200 ≤ status && status < 300) || status = 304

/-- The message of a thrown transport value:
err ? err.message || err.toString() : "Unknown error". -/
def transportErrorMessage : TransportError → String
  | .nullish => "Unknown error"
  | .err message toStr => jsOr message toStr

/-- The error-branch message computed from the response body: a string
body trimmed; an object body joins the compacted message and details with
": ", falling back to the serialized body; otherwise "Unknown error". -/
def messageFromData : RespData → String
  | .str s => jsTrim s
  | .obj o => jsOr (String.intercalate ": " (compactStrs [o.message, o.details])) o.json
  | .other => "Unknown error"

/-- _.compact([status, msg]).join(" - "): the status is dropped when 0
(falsy) and the message when empty. -/
def statusMsgJoin (status : Nat) (msg : String) : String :=
  String.intercalate " - "
    ((if status = 0 then [] else [toString status]) ++ (if msg = "" then [] else [msg]))

/-- The outcome-to-Result normalization of the request wrapper: a thrown
transport value becomes an error with its message; a response is success
carrying the raw body when the status passes, else an error with the
status-joined normalized message. -/
def requestResult : HttpOutcome → Either String RespData
  | .threw e => .error (transportErrorMessage e)
  | .responded r =>
      if isSuccessStatus r.status then .success r.data
      else .error (statusMsgJoin r.status (messageFromData r.data))

/-- The request wrapper: build the request, consult the network oracle,
normalize the outcome; the returned list records the single request
issued. -/
def PortainerApi.request (api : PortainerApi) (net : Net) (method path : String)
    (tokenArg : Option String) (body : ReqBody) :
    Either String RespData × List HttpRequest :=
  let req := api.mkReq method path tokenArg body
  (requestResult (net req), [req])

/-- The cast loginResponse.jwt of the /auth success body. -/
def dataJwt : RespData → String
  | .obj o => o.jwt
  | _ => ""

/-- The cast data as Endpoint[] of the /endpoints success body. -/
def dataAsEndpoints : RespData → List Endpoint
  | .obj o => o.endpoints
  | _ => []

/-- The cast data as Stack[] of the /stacks success body. -/
def dataAsStacks : RespData → List Stack
  | .obj o => o.stackList
  | _ => []

/-- A single apostrophe character, used by the endpoint-not-found
message. -/
def squote : String := String.singleton (Char.ofNat 39)

/-- The template literal of the source: Cannot find endpoint quoted by
apostrophes. -/
def cannotFindEndpointMsg (endpointName : String) : String :=
  "Cannot find endpoint " ++ squote ++ endpointName ++ squote

/-- The POST /auth request issued by login. -/
def PortainerApi.authReq (api : PortainerApi) (username password : String) : HttpRequest :=
  api.mkReq "POST" "/auth" none (.auth username password)

/-- The GET /endpoints request issued by login with the freshly issued
token passed as the explicit token argument. -/
def PortainerApi.endpointsReq (api : PortainerApi) (token : String) : HttpRequest :=
  api.mkReq "GET" "/endpoints" (some token) .empty

/-- login: POST /auth; on error return it at once; on success extract the
jwt, GET /endpoints with that token, find the endpoint by exact name and
build a new client instance sharing the options, or fail with the
endpoint-not-found message.  Returns result, issued-request trace, and
the state of this instance after the call (login never assigns to it). -/
def PortainerApi.login (api : PortainerApi) (net : Net)
    (username password endpointName : String) :
    Either String PortainerApi × List HttpRequest × PortainerApi :=
  let r1 := api.authReq username password
  match requestResult (net r1) with
  | .error msg => (.error msg, [r1], api)
  | .success d =>
      let token := dataJwt d
      let r2 := api.endpointsReq token
      let endpointsRes := requestResult (net r2)
      let result := endpointsRes.flatMap (fun d2 =>
        match (dataAsEndpoints d2).find? (fun endpoint => endpoint.Name == endpointName) with
        | some endpoint =>
            .success (PortainerApi.make api.options (some (.logged endpoint.Id token)))
        | none => .error (cannotFindEndpointMsg endpointName))
      (result, [r1, r2], api)

/-- The GET /stacks request issued by getStacks. -/
def PortainerApi.stacksReq (api : PortainerApi) : HttpRequest :=
  api.mkReq "GET" "/stacks" none .empty

/-- getStacks: GET /stacks, read the session endpoint id (throws when not
logged), then filter the returned stacks to those whose EndpointId equals
it. -/
def PortainerApi.getStacks (api : PortainerApi) (net : Net) :
    Except String (Either String (List Stack) × List HttpRequest) :=
  let p := api.request net "GET" "/stacks" none .empty
  match api.endpointId with
  | .error e => .error e
  | .ok endpointId =>
      .ok (p.1.map (fun d =>
        (dataAsStacks d).filter (fun stack => stack.EndpointId == endpointId)), p.2)

/-- The DELETE /stacks/id request issued by deleteStacks. -/
def PortainerApi.delReq (api : PortainerApi) (stackId : Int) : HttpRequest :=
  api.mkReq "DELETE" ("/stacks/" ++ toString stackId) none .empty

/-- deleteStacks: one DELETE per id in the given order; return the first
error as the overall result, issuing nothing further; success when every
deletion succeeded. -/
def PortainerApi.deleteStacks (api : PortainerApi) (net : Net) :
    List Int → Either String Unit × List HttpRequest
  | [] => (.success (), [])
  | stackId :: rest =>
      let r := api.delReq stackId
      match requestResult (net r) with
      | .error e => (.error e, [r])
      | .success _ =>
          let p := api.deleteStacks net rest
          (p.1, r :: p.2)

/-- The deletion of one id succeeds under the given oracle. -/
@[reducible] def delSucceeds (api : PortainerApi) (net : Net) (stackId : Int) : Prop :=
  (requestResult (net (api.delReq stackId))).isError = false

/-! Concrete fixtures used by the witness theorems. -/

/-- Fixture: a not-logged client over a concrete base URL. -/
def apiW : PortainerApi := PortainerApi.make ⟨"http://portainer.example"⟩ none

/-- Fixture: a logged client over the same base URL. -/
def apiWL : PortainerApi :=
  PortainerApi.make ⟨"http://portainer.example"⟩ (some (.logged 7 "tok7"))

/-- Fixture oracle: every request is rejected with status 401. -/
def netAuthFail : Net :=
  fun _ => .responded ⟨401, .obj ⟨"Invalid credentials", "", "", "", [], []⟩⟩

/-- Fixture oracle: POST requests get an auth-success body carrying a jwt,
all other requests get the endpoint list. -/
def netLoginOk : Net := fun req =>
  if req.method == "POST" then
    .responded ⟨200, .obj ⟨"", "", "", "jwt123", [], []⟩⟩
  else
    .responded ⟨200, .obj ⟨"", "", "", "", [⟨5, "prod"⟩, ⟨9, "staging"⟩], []⟩⟩

/-- Fixture oracle: every request gets a stack list owned by endpoints 7
and 3. -/
def netStacksW : Net :=
  fun _ => .responded ⟨200, .obj ⟨"", "", "", "", [], [⟨1, 7⟩, ⟨2, 3⟩, ⟨3, 7⟩]⟩⟩

/-- Fixture oracle: the DELETE of stack 2 fails with status 500, every
other request succeeds with status 204. -/
def netDelW : Net := fun req =>
  if req.url == apiWL.getUrl "/stacks/2" then .responded ⟨500, .str "boom"⟩
  else .responded ⟨204, .other⟩

/-! Helper lemmas. -/

/-- Intercalation of a singleton list is its element. -/
theorem intercalate_singleton (sep a : String) : String.intercalate sep [a] = a := rfl

/-- Intercalation of a two-element list places one separator. -/
theorem intercalate_pair (sep a b : String) :
    String.intercalate sep [a, b] = a ++ sep ++ b := rfl

/-- jsOr keeps a truthy first argument. -/
theorem jsOr_of_ne (a b : String) (h : a ≠ "") : jsOr a b = a := by
  simp [jsOr, h]

/-- Appending to the left of a non-empty string is non-empty. -/
theorem append_ne_empty_left (a b : String) (h : a ≠ "") : a ++ b ≠ "" := by
  intro hab
  apply h
  have h2 : a.data ++ b.data = [] := by
    have h3 := congrArg String.data hab
    simpa using h3
  rcases List.append_eq_nil.mp h2 with ⟨ha, _⟩
  cases a with
  | mk d =>
      simp only at ha
      simp [ha]

/-! Claim theorems. -/

/-- C6: a response is mapped to Success carrying the raw body exactly when
its status lies in [200,300) or equals 304; every other status and every
transport-level failure yields the Error variant. -/
theorem request_status_success_boundary (r : HttpResponse) (e : TransportError) :
    (requestResult (.responded r) = .success r.data
        ↔ ((200 ≤ r.status ∧ r.status < 300) ∨ r.status = 304))
    ∧ (¬((200 ≤ r.status ∧ r.status < 300) ∨ r.status = 304)
        → (requestResult (.responded r)).isError = true)
    ∧ (requestResult (.threw e)).isError = true := by
  have hiff : isSuccessStatus r.status = true
      ↔ ((200 ≤ r.status ∧ r.status < 300) ∨ r.status = 304) := by
    simp [isSuccessStatus]
  refine ⟨?_, ?_, ?_⟩
  · constructor
    · intro h
      by_contra hns
      have hb : isSuccessStatus r.status = false := by
        cases hh : isSuccessStatus r.status with
        | true => exact absurd (hiff.mp hh) hns
        | false => rfl
      simp [requestResult, hb] at h
    · intro h
      simp [requestResult, hiff.mpr h]
  · intro h
    have hb : isSuccessStatus r.status = false := by
      cases hh : isSuccessStatus r.status with
      | true => exact absurd (hiff.mp hh) h
      | false => rfl
    simp [requestResult, hb, Either.isError]
  · simp [requestResult, Either.isError]

/-- C6 witness: 299 and 304 are success, 300 and 404 are error. -/
theorem request_status_success_boundary_witness :
    requestResult (.responded ⟨299, .str "ok"⟩) = .success (.str "ok")
    ∧ (requestResult (.responded ⟨300, .other⟩)).isError = true
    ∧ requestResult (.responded ⟨304, .other⟩) = .success .other
    ∧ (requestResult (.responded ⟨404, .other⟩)).isError = true :=
  ⟨(request_status_success_boundary ⟨299, .str "ok"⟩ .nullish).1.mpr (by decide),
   (request_status_success_boundary ⟨300, .other⟩ .nullish).2.1 (by decide),
   (request_status_success_boundary ⟨304, .other⟩ .nullish).1.mpr (by decide),
   (request_status_success_boundary ⟨404, .other⟩ .nullish).2.1 (by decide)⟩

/-- C7: error-message normalization.  A thrown transport value uses its
message, its toString fallback, or "Unknown error", with no status
prefix; a failed response uses the trimmed string body, or the non-empty
message and details joined with ": " falling back to the serialized body,
or "Unknown error", and the message is prefixed by the numeric status
joined with " - ". -/
theorem request_error_message_normalization (m toStr bs : String) (s : Nat)
    (hs : isSuccessStatus s = false) (h0 : s ≠ 0) :
    requestResult (.threw .nullish) = .error "Unknown error"
    ∧ (m ≠ "" → requestResult (.threw (.err m toStr)) = .error m)
    ∧ (m = "" → requestResult (.threw (.err m toStr)) = .error toStr)
    ∧ requestResult (.responded ⟨s, .str bs⟩) = .error (statusMsgJoin s (jsTrim bs))
    ∧ (∀ o : ObjData, o.message ≠ "" → o.details ≠ "" →
        requestResult (.responded ⟨s, .obj o⟩)
          = .error (statusMsgJoin s (o.message ++ ": " ++ o.details)))
    ∧ (∀ o : ObjData, o.message ≠ "" → o.details = "" →
        requestResult (.responded ⟨s, .obj o⟩)
          = .error (statusMsgJoin s o.message))
    ∧ (∀ o : ObjData, o.message = "" → o.details ≠ "" →
        requestResult (.responded ⟨s, .obj o⟩)
          = .error (statusMsgJoin s o.details))
    ∧ (∀ o : ObjData, o.message = "" → o.details = "" → o.json ≠ "" →
        requestResult (.responded ⟨s, .obj o⟩)
          = .error (statusMsgJoin s o.json))
    ∧ requestResult (.responded ⟨s, .other⟩)
        = .error (statusMsgJoin s "Unknown error")
    ∧ (∀ msg, msg ≠ "" → statusMsgJoin s msg = toString s ++ " - " ++ msg) := by
  refine ⟨?_, ?_, ?_, ?_, ?_, ?_, ?_, ?_, ?_, ?_⟩
  · simp [requestResult, transportErrorMessage]
  · intro hm; simp [requestResult, transportErrorMessage, jsOr, hm]
  · intro hm; simp [requestResult, transportErrorMessage, jsOr, hm]
  · simp [requestResult, hs, messageFromData]
  · intro o hm hd
    have hc : compactStrs [o.message, o.details] = [o.message, o.details] := by
      simp [compactStrs, hm, hd]
    have hne : o.message ++ ": " ++ o.details ≠ "" :=
      append_ne_empty_left _ _ (append_ne_empty_left _ _ hm)
    simp [requestResult, hs, messageFromData, hc, intercalate_pair, jsOr_of_ne _ _ hne]
  · intro o hm hd
    have hc : compactStrs [o.message, o.details] = [o.message] := by
      simp [compactStrs, hm, hd]
    simp [requestResult, hs, messageFromData, hc, intercalate_singleton, jsOr_of_ne _ _ hm]
  · intro o hm hd
    have hc : compactStrs [o.message, o.details] = [o.details] := by
      simp [compactStrs, hm, hd]
    simp [requestResult, hs, messageFromData, hc, intercalate_singleton, jsOr_of_ne _ _ hd]
  · intro o hm hd hj
    have hc : compactStrs [o.message, o.details] = [] := by
      simp [compactStrs, hm, hd]
    simp [requestResult, hs, messageFromData, hc, String.intercalate, jsOr]
  · simp [requestResult, hs, messageFromData]
  · intro msg hmsg
    simp [statusMsgJoin, h0, hmsg, intercalate_pair]

/-- C7 witness: a 404 with a padded string body yields the trimmed,
status-prefixed message; a thrown transport error keeps its bare
message. -/
theorem request_error_message_normalization_witness :
    requestResult (.responded ⟨404, .str " not found "⟩) = .error "404 - not found"
    ∧ requestResult (.threw (.err "conn refused" "ts")) = .error "conn refused" :=
  ⟨((request_error_message_normalization "m" "ts" " not found " 404
      (by decide) (by decide)).2.2.2.1).trans (by decide),
   (request_error_message_normalization "conn refused" "ts" "b" 404
      (by decide) (by decide)).2.1 (by decide)⟩

/-- C8: setSession followed by the token and endpointId getters returns
exactly the stored values; clearSession followed by either getter fails
with the not-logged contract violation. -/
theorem session_roundtrip (api : PortainerApi) (t : String) (e : Int) :
    (api.setSession t e).token = .ok t
    ∧ (api.setSession t e).endpointId = .ok e
    ∧ api.clearSession.token = .error "Not logged in"
    ∧ api.clearSession.endpointId = .error "Not logged in" := by
  refine ⟨?_, ?_, ?_, ?_⟩ <;>
    simp [PortainerApi.setSession, PortainerApi.clearSession, PortainerApi.token,
      PortainerApi.endpointId, PortainerApi.getLoggedInData, Except.map]

/-- C9 counterexample: the baseUrl getter returns the constructor input
unmodified, so for an input with a trailing slash it differs from the
trailing-slash-stripped input the claim requires. -/
theorem baseUrl_not_stripped_counterexample :
    (PortainerApi.make ⟨"http://portainer.example/"⟩ none).baseUrl
      ≠ stripTrailingSlashes "http://portainer.example/" := by decide

/-- C9 amended: the client keeps the constructor input base URL unchanged
(the baseUrl getter returns it as given); trailing slashes are stripped
only when forming apiUrl, and every request URL is the stripped base URL
plus "/api" plus the slash-normalized path. -/
theorem request_url_from_stripped_base (options : ConstructorOptions) (st : Option State)
    (method path : String) (tokenArg : Option String) (body : ReqBody) :
    (PortainerApi.make options st).baseUrl = options.baseUrl
    ∧ (PortainerApi.make options st).apiUrl = stripTrailingSlashes options.baseUrl ++ "/api"
    ∧ ((PortainerApi.make options st).mkReq method path tokenArg body).url
        = stripTrailingSlashes options.baseUrl ++ "/api"
          ++ (if startsWithSlash path then path else "/" ++ path) := by
  refine ⟨rfl, rfl, ?_⟩
  simp [PortainerApi.mkReq, PortainerApi.getUrl, PortainerApi.make]

/-- C10: deleting the empty list of ids returns Success and issues no
request. -/
theorem deleteStacks_empty_no_requests (api : PortainerApi) (net : Net) :
    api.deleteStacks net [] = (.success (), []) := rfl

/-- C1: when the remote listing answers with a stack list and the client
is logged, getStacks returns Success of exactly those stacks whose
EndpointId equals the session endpoint id, a sublist of the remote list,
selected by exact equality. -/
theorem getStacks_filters_by_endpoint (api : PortainerApi) (net : Net)
    (eid : Int) (tok : String) (o : ObjData)
    (hlog : api.state = .logged eid tok)
    (hnet : requestResult (net api.stacksReq) = .success (.obj o)) :
    ∃ out, api.getStacks net = .ok (.success out, [api.stacksReq])
      ∧ out.Sublist o.stackList
      ∧ (∀ s : Stack, s ∈ out ↔ s ∈ o.stackList ∧ s.EndpointId = eid) := by
  refine ⟨o.stackList.filter (fun stack => stack.EndpointId == eid), ?_, ?_, ?_⟩
  · have hreq : api.mkReq "GET" "/stacks" none .empty = api.stacksReq := rfl
    simp [PortainerApi.getStacks, PortainerApi.request, hreq, hnet,
      PortainerApi.endpointId, PortainerApi.getLoggedInData, hlog, Except.map,
      Either.map, dataAsStacks]
  · exact List.filter_sublist _
  · intro s
    simp [List.mem_filter]

/-- C1 witness: a logged client on endpoint 7 keeps exactly the stacks
owned by endpoint 7 out of a mixed remote listing. -/
theorem getStacks_filters_by_endpoint_witness :
    ∃ out, apiWL.getStacks netStacksW = .ok (.success out, [apiWL.stacksReq])
      ∧ out.Sublist [⟨1, 7⟩, ⟨2, 3⟩, ⟨3, 7⟩]
      ∧ (∀ s : Stack, s ∈ out ↔ s ∈ ([⟨1, 7⟩, ⟨2, 3⟩, ⟨3, 7⟩] : List Stack)
          ∧ s.EndpointId = 7) :=
  getStacks_filters_by_endpoint apiWL netStacksW 7 "tok7"
    ⟨"", "", "", "", [], [⟨1, 7⟩, ⟨2, 3⟩, ⟨3, 7⟩]⟩ (by decide) (by decide)

/-- C2: deleteStacks walks the ids in the given order, one DELETE each;
when the ids split as a successful prefix, a first failing id and a
remainder, the result is that failure and the issued requests are exactly
the DELETEs of the prefix plus the failing id; when every deletion
succeeds the result is Success with one DELETE per id in order. -/
theorem deleteStacks_stops_at_first_failure (api : PortainerApi) (net : Net) :
    (∀ pre bad post e, (∀ i ∈ pre, delSucceeds api net i) →
        requestResult (net (api.delReq bad)) = .error e →
        api.deleteStacks net (pre ++ bad :: post)
          = (.error e, (pre ++ [bad]).map api.delReq))
    ∧ (∀ ids, (∀ i ∈ ids, delSucceeds api net i) →
        api.deleteStacks net ids = (.success (), ids.map api.delReq)) := by
  constructor
  · intro pre bad post e hpre hbad
    induction pre with
    | nil => simp [PortainerApi.deleteStacks, hbad]
    | cons i rest ih =>
        have hi : (requestResult (net (api.delReq i))).isError = false :=
          hpre i (by simp)
        cases hres : requestResult (net (api.delReq i)) with
        | error e2 => rw [hres] at hi; simp [Either.isError] at hi
        | success v =>
            have hrec := ih (fun j hj => hpre j (by simp [hj]))
            simp [PortainerApi.deleteStacks, hres, hrec]
  · intro ids hids
    induction ids with
    | nil => rfl
    | cons i rest ih =>
        have hi : (requestResult (net (api.delReq i))).isError = false :=
          hids i (by simp)
        cases hres : requestResult (net (api.delReq i)) with
        | error e2 => rw [hres] at hi; simp [Either.isError] at hi
        | success v =>
            have hrec := ih (fun j hj => hids j (by simp [hj]))
            simp [PortainerApi.deleteStacks, hres, hrec]

/-- C2 witness: deleting [1, 2, 3] where the DELETE of 2 fails yields
that failure and issues only the DELETEs of 1 and 2, in order. -/
theorem deleteStacks_stops_at_first_failure_witness :
    apiWL.deleteStacks netDelW [1, 2, 3]
      = (.error "500 - boom", [apiWL.delReq 1, apiWL.delReq 2]) :=
  (deleteStacks_stops_at_first_failure apiWL netDelW).1 [1] 2 [3] "500 - boom"
    (by decide) (by decide)

/-- C3: when the POST /auth fails, login returns that error immediately
and the only issued request is the auth POST (in particular the endpoints
GET, whose method differs, is never issued); when the auth call succeeds
with a truthy jwt, the issued requests are the auth POST followed by the
endpoints GET carrying that jwt as bearer token. -/
theorem login_auth_ordering (api : PortainerApi) (net : Net) (u p en : String) :
    (∀ msg, requestResult (net (api.authReq u p)) = .error msg →
        api.login net u p en = (.error msg, [api.authReq u p], api))
    ∧ (∀ d t, requestResult (net (api.authReq u p)) = .success d → dataJwt d = t →
        t ≠ "" →
        (api.login net u p en).2.1 = [api.authReq u p, api.endpointsReq t]
        ∧ (api.endpointsReq t).authHeader = some ("Bearer " ++ t))
    ∧ (∀ t, api.authReq u p ≠ api.endpointsReq t) := by
  refine ⟨?_, ?_, ?_⟩
  · intro msg hmsg
    simp [PortainerApi.login, hmsg]
  · intro d t hd ht hne
    subst ht
    constructor
    · simp [PortainerApi.login, hd]
    · simp [PortainerApi.endpointsReq, PortainerApi.mkReq, jsOr, hne]
  · intro t h
    have hm := congrArg HttpRequest.method h
    simp [PortainerApi.authReq, PortainerApi.endpointsReq, PortainerApi.mkReq] at hm

/-- C3 witness: against an oracle rejecting the auth call, login fails
with the normalized message and issues only the auth POST; against an
oracle accepting it, the second issued request is the endpoints GET with
the issued jwt as bearer token. -/
theorem login_auth_ordering_witness :
    apiW.login netAuthFail "admin" "pw" "prod"
      = (.error "401 - Invalid credentials", [apiW.authReq "admin" "pw"], apiW)
    ∧ (apiW.login netLoginOk "admin" "pw" "prod").2.1
        = [apiW.authReq "admin" "pw", apiW.endpointsReq "jwt123"]
    ∧ (apiW.endpointsReq "jwt123").authHeader = some ("Bearer " ++ "jwt123") :=
  ⟨(login_auth_ordering apiW netAuthFail "admin" "pw" "prod").1
      "401 - Invalid credentials" (by decide),
   ((login_auth_ordering apiW netLoginOk "admin" "pw" "prod").2.1
      (.obj ⟨"", "", "", "jwt123", [], []⟩) "jwt123" (by decide) rfl (by decide)).1,
   ((login_auth_ordering apiW netLoginOk "admin" "pw" "prod").2.1
      (.obj ⟨"", "", "", "jwt123", [], []⟩) "jwt123" (by decide) rfl (by decide)).2⟩

/-- C4: when both network calls succeed but no returned endpoint has a
Name equal to the requested endpoint name, login returns the error
message containing the literal name between apostrophes. -/
theorem login_endpoint_not_found (api : PortainerApi) (net : Net)
    (u p en : String) (d : RespData) (o2 : ObjData)
    (hauth : requestResult (net (api.authReq u p)) = .success d)
    (hend : requestResult (net (api.endpointsReq (dataJwt d))) = .success (.obj o2))
    (hmiss : ∀ e ∈ o2.endpoints, e.Name ≠ en) :
    api.login net u p en
      = (.error (cannotFindEndpointMsg en),
         [api.authReq u p, api.endpointsReq (dataJwt d)], api) := by
  have hfind : o2.endpoints.find? (fun endpoint => endpoint.Name == en) = none := by
    apply List.find?_eq_none.mpr
    intro e he
    simpa using hmiss e he
  simp [PortainerApi.login, hauth, hend, Either.flatMap, dataAsEndpoints, hfind]

/-- C4 witness: both calls succeed yet the name dev is not among the
returned endpoints, so login fails with the literal-name message. -/
theorem login_endpoint_not_found_witness :
    apiW.login netLoginOk "admin" "pw" "dev"
      = (.error (cannotFindEndpointMsg "dev"),
         [apiW.authReq "admin" "pw", apiW.endpointsReq "jwt123"], apiW) :=
  login_endpoint_not_found apiW netLoginOk "admin" "pw" "dev"
    (.obj ⟨"", "", "", "jwt123", [], []⟩)
    ⟨"", "", "", "", [⟨5, "prod"⟩, ⟨9, "staging"⟩], []⟩
    (by decide) (by decide) (by decide)

/-- C5: a successful login returns Success wrapping a new client whose
state is logged with the issued token and the matched endpoint id and
whose options are those of the original; the original instance, returned
unchanged as the post-call self, keeps its state. -/
theorem login_success_new_instance (api : PortainerApi) (net : Net)
    (u p en : String) (d d2 : RespData) (ep : Endpoint)
    (hauth : requestResult (net (api.authReq u p)) = .success d)
    (hend : requestResult (net (api.endpointsReq (dataJwt d))) = .success d2)
    (hfind : (dataAsEndpoints d2).find? (fun endpoint => endpoint.Name == en)
        = some ep) :
    ∃ newApi,
      api.login net u p en
        = (.success newApi, [api.authReq u p, api.endpointsReq (dataJwt d)], api)
      ∧ newApi.state = .logged ep.Id (dataJwt d)
      ∧ newApi.options = api.options
      ∧ (api.login net u p en).2.2 = api := by
  refine ⟨PortainerApi.make api.options (some (.logged ep.Id (dataJwt d))), ?_, rfl, rfl, ?_⟩
  · simp [PortainerApi.login, hauth, hend, Either.flatMap, hfind]
  · simp [PortainerApi.login, hauth]

/-- C5 witness: logging into the endpoint named prod returns a new
client logged on endpoint 5 with the issued jwt, sharing the options,
while the original not-logged client is unchanged. -/
theorem login_success_new_instance_witness :
    ∃ newApi,
      apiW.login netLoginOk "admin" "pw" "prod"
        = (.success newApi, [apiW.authReq "admin" "pw", apiW.endpointsReq "jwt123"], apiW)
      ∧ newApi.state = .logged 5 "jwt123"
      ∧ newApi.options = apiW.options
      ∧ (apiW.login netLoginOk "admin" "pw" "prod").2.2 = apiW :=
  login_success_new_instance apiW netLoginOk "admin" "pw" "prod"
    (.obj ⟨"", "", "", "jwt123", [], []⟩)
    (.obj ⟨"", "", "", "", [⟨5, "prod"⟩, ⟨9, "staging"⟩], []⟩)
    ⟨5, "prod"⟩ (by decide) (by decide) (by decide)

end D2Portainer
